import Mathlib

/-!
# Verification of the esp-wifi-logger log-transport pipeline

Shallow embedding of `src/wifi_logger.c`: the bounded FreeRTOS message
queue (`xQueueSendToBack` / `xQueueReceive`), the producer-side functions
`send_to_queue`, `generate_log_message` and `system_log_message_route`,
the consumer-side `receive_from_queue`, and the dispatch loop
`wifi_logger` (all three transport variants share the same loop body;
the transport send primitive is abstracted as a function from records to
an integer byte count / error code, matching `send_data`,
`tcp_send_data` and `websocket_send_data`).

Log records are `char*` buffers; we model a pointer as a `Nat` identifier
and model the allocator explicitly (`Heap`) so that leak and double-free
properties are statable.  The queue holds pointer identifiers in FIFO
order, front at the head of the list.
-/

/-- FreeRTOS `BaseType_t` results of a queue operation as used in
`wifi_logger.c`: `pdPASS` on success, `pdFALSE` (= `errQUEUE_FULL` /
`errQUEUE_EMPTY` = 0) on failure. -/
inductive BaseType where
  | pdPASS
  | pdFALSE
deriving DecidableEq, Repr

/-- `esp_err_t` as used by `send_to_queue`: `ESP_OK` or `ESP_FAIL`. -/
inductive EspErr where
  | ok
  | fail
deriving DecidableEq, Repr

/-- The FreeRTOS queue created by `init_queue` with
`xQueueCreate(MESSAGE_QUEUE_SIZE, sizeof(char*))`: a fixed-capacity FIFO
of `char*` values.  `items` lists the queued pointers, front first. -/
structure Queue where
  capacity : Nat
  items : List Nat
deriving DecidableEq, Repr

/-- `xQueueSendToBack(q, &msg, 0)`: non-blocking (zero ticks); appends at
the back if a slot is free, otherwise returns `errQUEUE_FULL` (modelled
as `pdFALSE`) leaving the queue unchanged. -/
def xQueueSendToBack (q : Queue) (p : Nat) : BaseType × Queue :=
  if q.items.length < q.capacity then
    (BaseType.pdPASS, ⟨q.capacity, q.items ++ [p]⟩)
  else
    (BaseType.pdFALSE, q)

/-- `xQueueReceive(q, &data, portMAX_DELAY)` at the moment the call
completes: if a record is (eventually) available it is removed from the
front and written to `data` (`pdPASS`); if the queue stays empty until
the `portMAX_DELAY` wait window elapses it returns `pdFALSE` and `data`
keeps its indeterminate initial value (modelled as `none`: nothing was
written). -/
def xQueueReceive (q : Queue) : BaseType × Option Nat × Queue :=
  match q.items with
  | p :: rest => (BaseType.pdPASS, some p, ⟨q.capacity, rest⟩)
  | [] => (BaseType.pdFALSE, none, q)

/-- `send_to_queue(log_message)` (wifi_logger.c:44-63): posts the pointer
to the back of the queue with zero timeout; `ESP_OK` on `pdPASS`,
`ESP_FAIL` on `errQUEUE_FULL` (and on any other value, dead here). -/
def send_to_queue (q : Queue) (log_message : Nat) : EspErr × Queue :=
  let (qerror, q') := xQueueSendToBack q log_message
  match qerror with
  | BaseType.pdPASS => (EspErr.ok, q')
  | BaseType.pdFALSE => (EspErr.fail, q')

/-- Outcome of a call to `receive_from_queue`: either the process is
aborted by the failing `configASSERT`, or the function returns a
(possibly `NULL`) `char*` value, having performed the listed `free`
calls, with the queue in the given final state. -/
inductive ReceiveOutcome where
  | abort
  | returns (data : Option Nat) (frees : List Nat) (q : Queue)
deriving DecidableEq, Repr

/-- `receive_from_queue()` (wifi_logger.c:70-101) with assertions
enabled (the default build): dequeues with `portMAX_DELAY`; then
`configASSERT(qerror)` aborts the program whenever `qerror` is zero
(`pdFALSE`), so the `pdFALSE` branch below the assertion — which would
`free` the local `data` — is never reached, and on `pdPASS` the dequeued
pointer is returned with no `free` performed. -/
def receive_from_queue (q : Queue) : ReceiveOutcome :=
  match xQueueReceive q with
  | (BaseType.pdPASS, data, q') => ReceiveOutcome.returns data [] q'
  | (BaseType.pdFALSE, _, _) => ReceiveOutcome.abort

/-- `receive_from_queue()` as built with `configASSERT` compiled out:
the `pdFALSE` branch then executes `free((void*)data)` on the local
`data`, which `xQueueReceive` never wrote — `uninit` stands for the
indeterminate stack value of that local — and returns `NULL`. -/
def receive_from_queue_no_assert (uninit : Nat) (q : Queue) : ReceiveOutcome :=
  match xQueueReceive q with
  | (BaseType.pdPASS, data, q') => ReceiveOutcome.returns data [] q'
  | (BaseType.pdFALSE, _, q') => ReceiveOutcome.returns none [uninit] q'

theorem receive_nonempty (cap p : Nat) (rest : List Nat) :
    receive_from_queue ⟨cap, p :: rest⟩
      = ReceiveOutcome.returns (some p) [] ⟨cap, rest⟩ := rfl

theorem receive_empty (cap : Nat) :
    receive_from_queue ⟨cap, []⟩ = ReceiveOutcome.abort := rfl

/-! ## Allocator model

`malloc` hands out fresh identifiers; `live` is the association list of
currently allocated buffers and their contents; `freeLog` records every
pointer ever passed to `free`, in call order. -/

structure Heap where
  next : Nat
  live : List (Nat × String)
  freeLog : List Nat
deriving DecidableEq, Repr

def Heap.malloc (h : Heap) (s : String) : Heap × Nat :=
  (⟨h.next + 1, h.live ++ [(h.next, s)], h.freeLog⟩, h.next)

def Heap.free (h : Heap) (p : Nat) : Heap :=
  ⟨h.next, h.live.filter (fun e => e.1 ≠ p), h.freeLog ++ [p]⟩

/-- Contents of an allocated, not-yet-freed buffer. -/
def Heap.contents (h : Heap) (p : Nat) : Option String :=
  (h.live.find? (fun e => e.1 = p)).map (fun e => e.2)

/-! ## Formatter

`generate_log_message` renders with `sprintf` / `vsprintf`, which write
the full expansion irrespective of the destination buffer's size.  We
model the printf expansion for `%s` / `%d` conversion specifications
(the directives this code base uses); an argument list element is
consumed per directive. -/

/-- A variadic argument to a printf-style call. -/
inductive FmtArg where
  | str (s : String)
  | int (n : Int)
deriving DecidableEq, Repr

/-- printf-style expansion of a format string over its arguments,
covering `%s`, `%d` and `%%`; other characters are copied verbatim. -/
def printfRender : List Char → List FmtArg → List Char
  | [], _ => []
  | '%' :: 's' :: rest, FmtArg.str s :: args => s.data ++ printfRender rest args
  | '%' :: 'd' :: rest, FmtArg.int n :: args => (toString n).data ++ printfRender rest args
  | '%' :: '%' :: rest, args => '%' :: printfRender rest args
  | c :: rest, args => c :: printfRender rest args

/-- `vsprintf(buf, fmt, args)` as a pure value: the string written. -/
def vsprintf (fmt : String) (args : List FmtArg) : String :=
  ⟨printfRender fmt.data args⟩

/-- The header `sprintf(buf, "%s (%s:%d) ", TAG, func, line)` writes
(wifi_logger.c:117). -/
def logHeader (TAG func : String) (line : Int) : String :=
  TAG ++ " (" ++ func ++ ":" ++ toString line ++ ") "

/-- Full contents `generate_log_message` renders into its fixed
`log_print_buffer[BUFFER_SIZE]`: the header followed by the expanded
message.  `sprintf`/`vsprintf` are not bounds-checked, so this string is
produced in full no matter what `BUFFER_SIZE` is. -/
def log_print_buffer_contents (TAG func : String) (line : Int)
    (fmt : String) (args : List FmtArg) : String :=
  logHeader TAG func line ++ vsprintf fmt args

/-- Number of bytes the two unchecked format calls store into
`log_print_buffer` (the rendered characters plus the terminating NUL). -/
def generate_log_message_bytes_written (TAG func : String) (line : Int)
    (fmt : String) (args : List FmtArg) : Nat :=
  (log_print_buffer_contents TAG func line fmt args).length + 1

/-- `esp_log_level_t` values that can reach `generate_log_message`. -/
inductive EspLogLevel where
  | error
  | warn
  | info
  | debug
  | verbose
  | none_
deriving DecidableEq, Repr

/-- The `switch (level)` mapping to the numeric option
(wifi_logger.c:127-147); every unlisted level falls to the default 2. -/
def log_level_opt : EspLogLevel → Nat
  | EspLogLevel.error => 0
  | EspLogLevel.warn => 1
  | EspLogLevel.info => 2
  | EspLogLevel.debug => 3
  | EspLogLevel.verbose => 4
  | EspLogLevel.none_ => 2

/-- Modelled from the spec: `generate_log_message_timestamp` lives in
`util.cpp`, which is not part of this source snapshot; per the spec
(§4.1) the timestamping step prepends the numeric severity rank and a
synthesized monotonic timestamp to the rendered message, returning the
result in a freshly `malloc`ed buffer (the allocation itself is done by
the caller's heap in `generate_log_message` below, matching the code
comment at wifi_logger.c:150-152). -/
def generate_log_message_timestamp (opt : Nat) (timestamp : Nat)
    (msg : String) : String :=
  toString opt ++ " (" ++ toString timestamp ++ ") " ++ msg

/-- `generate_log_message(level, TAG, line, func, fmt, ...)`
(wifi_logger.c:112-156): renders header and message into the local
buffer, maps the level to its numeric option, and enqueues the pointer
returned by `generate_log_message_timestamp` (a fresh allocation holding
the timestamped message).  The `esp_err_t` result of `send_to_queue` is
discarded, and the allocated record is not freed on failure. -/
def generate_log_message (level : EspLogLevel) (TAG : String) (line : Int)
    (func : String) (fmt : String) (args : List FmtArg) (timestamp : Nat)
    (h : Heap) (q : Queue) : Heap × Queue :=
  let buf := log_print_buffer_contents TAG func line fmt args
  let opt := log_level_opt level
  let alloc := h.malloc (generate_log_message_timestamp opt timestamp buf)
  (alloc.1, (send_to_queue q alloc.2).2)

/-! ## Interception hook -/

/-- Global state seen by `system_log_message_route`: the allocator, the
logger queue, and the local console (the lines `vprintf` has written to
the default sink, in order). -/
structure SysState where
  heap : Heap
  queue : Queue
  console : List String
deriving DecidableEq, Repr

/-- `system_log_message_route(fmt, tag)` (wifi_logger.c:165-173):
`malloc`s a `BUFFER_SIZE` buffer, `vsprintf`s the formatted text into
it, posts the pointer with `send_to_queue` (result discarded; a
rejected record is not freed), then forwards the same formatted text to
the local console with `vprintf` and returns `vprintf`'s byte count. -/
def system_log_message_route (fmt : String) (args : List FmtArg)
    (st : SysState) : Int × SysState :=
  let rendered := vsprintf fmt args
  let alloc := st.heap.malloc rendered
  let q' := (send_to_queue st.queue alloc.2).2
  ((rendered.length : Int), ⟨alloc.1, q', st.console ++ [rendered]⟩)

/-! ## Dispatch loop

`wifi_logger()` exists in three `#ifdef` variants (UDP, TCP,
websocket); their loop bodies are identical up to the transport send
primitive and the text of the substituted error string, so one
definition parametrised by the transport's `send_data` function and the
error string covers all three.  Each iteration is recorded as a trace
of events so that ordering, release and send-attempt properties are
statable. -/

/-- One observable action of a dispatch-loop iteration. -/
inductive Event where
  | dequeue (p : Nat)
  | send (p : Nat) (len : Int)
  | sendStatic (s : String) (len : Int)
  | free (p : Nat)
deriving DecidableEq, Repr

/-- Result of one iteration of the `while (true)` body. -/
inductive StepResult where
  | crashed
  | ok (q : Queue) (events : List Event)
deriving DecidableEq, Repr

/-- The error string substituted in the `log_message == NULL` branch
(UDP/TCP variants; the websocket variant differs only in this text). -/
def unknownErrorString : String := "Unknown error - receiving log message"

/-- One iteration of the loop in `wifi_logger` (wifi_logger.c:202-219):
dequeue via `receive_from_queue`; if the pointer is non-`NULL`, send it
through the transport and `free` it; otherwise send the static error
string (and free nothing).  `send_data` abstracts the transport
primitive (`send_data` / `tcp_send_data` / `websocket_send_data`),
mapping the record to the returned byte count or error code. -/
def wifi_logger_step (send_data : Nat → Int) (q : Queue) : StepResult :=
  match receive_from_queue q with
  | ReceiveOutcome.abort => StepResult.crashed
  | ReceiveOutcome.returns (some p) _ q' =>
      StepResult.ok q' [Event.dequeue p, Event.send p (send_data p), Event.free p]
  | ReceiveOutcome.returns none _ q' =>
      StepResult.ok q' [Event.sendStatic unknownErrorString (send_data 0)]

/-- Result of running the dispatch loop a number of iterations. -/
inductive RunResult where
  | crashed (events : List Event)
  | ok (q : Queue) (events : List Event)
deriving DecidableEq, Repr

/-- `fuel` iterations of the `wifi_logger` loop, accumulating the event
trace. -/
def wifi_logger_run (send_data : Nat → Int) : Nat → Queue → RunResult
  | 0, q => RunResult.ok q []
  | n + 1, q =>
      match wifi_logger_step send_data q with
      | StepResult.crashed => RunResult.crashed []
      | StepResult.ok q' evs =>
          match wifi_logger_run send_data n q' with
          | RunResult.crashed evs2 => RunResult.crashed (evs ++ evs2)
          | RunResult.ok q'' evs2 => RunResult.ok q'' (evs ++ evs2)

/-- The pointers handed to the transport, in send order. -/
def sendsOf : List Event → List Nat
  | [] => []
  | Event.send p _ :: rest => p :: sendsOf rest
  | _ :: rest => sendsOf rest

/-- How many times the trace frees pointer `p`. -/
def countFree (p : Nat) : List Event → Nat
  | [] => 0
  | Event.free q :: rest => (if q = p then 1 else 0) + countFree p rest
  | _ :: rest => countFree p rest

/-- `send_to_queue` applied to each record of a list in turn. -/
def enqueueAll : List Nat → Queue → List EspErr × Queue
  | [], q => ([], q)
  | p :: ps, q =>
      let (e, q') := send_to_queue q p
      let (es, q'') := enqueueAll ps q'
      (e :: es, q'')

/-- The pointers handed to `free`, in call order. -/
def freesOf : List Event → List Nat
  | [] => []
  | Event.free p :: rest => p :: freesOf rest
  | _ :: rest => freesOf rest

/-- The trace the dispatch loop produces when it drains exactly the
records `ps`: per record a dequeue, one transport send, one free. -/
def dispatchTrace (f : Nat → Int) : List Nat → List Event
  | [] => []
  | p :: ps =>
      Event.dequeue p :: Event.send p (f p) :: Event.free p :: dispatchTrace f ps

/-! ## General lemmas about the queue and the dispatch loop -/

theorem enqueueAll_ok (ps : List Nat) (q : Queue)
    (h : q.items.length + ps.length ≤ q.capacity) :
    enqueueAll ps q
      = (List.replicate ps.length EspErr.ok, ⟨q.capacity, q.items ++ ps⟩) := by
  induction ps generalizing q with
  | nil => simp [enqueueAll]
  | cons p ps ih =>
      have hlt : q.items.length < q.capacity := by
        simp only [List.length_cons] at h
        omega
      have hrec : (⟨q.capacity, q.items ++ [p]⟩ : Queue).items.length + ps.length
          ≤ (⟨q.capacity, q.items ++ [p]⟩ : Queue).capacity := by
        simp only [List.length_append, List.length_singleton]
        simp only [List.length_cons] at h
        omega
      simp [enqueueAll, send_to_queue, xQueueSendToBack, hlt, ih _ hrec,
        List.replicate_succ]

theorem run_drains (f : Nat → Int) (ps : List Nat) (cap : Nat) :
    wifi_logger_run f ps.length ⟨cap, ps⟩
      = RunResult.ok ⟨cap, []⟩ (dispatchTrace f ps) := by
  induction ps with
  | nil => simp [wifi_logger_run, dispatchTrace]
  | cons p ps ih =>
      simp [wifi_logger_run, wifi_logger_step, receive_from_queue, xQueueReceive,
        ih, dispatchTrace]

theorem sendsOf_dispatchTrace (f : Nat → Int) (ps : List Nat) :
    sendsOf (dispatchTrace f ps) = ps := by
  induction ps with
  | nil => rfl
  | cons p ps ih => simp [dispatchTrace, sendsOf, ih]

theorem freesOf_dispatchTrace (f : Nat → Int) (ps : List Nat) :
    freesOf (dispatchTrace f ps) = ps := by
  induction ps with
  | nil => rfl
  | cons p ps ih => simp [dispatchTrace, freesOf, ih]

/-! ## Claim theorems -/

/-- C1: the claim says `receive` on an empty queue whose wait elapses
yields a distinct `TimedOut` outcome that frees and reads no buffer.
The code has no such outcome: when `xQueueReceive` times out
(`pdFALSE`), `configASSERT(qerror)` aborts the process; and in a build
with assertions compiled out, the `pdFALSE` branch frees the
uninitialized local `data` (here its indeterminate value is 12345) — an
invalid `free`, not a non-owning timeout result. -/
theorem receive_timeout_aborts_or_frees_garbage :
    receive_from_queue ⟨8, []⟩ = ReceiveOutcome.abort ∧
    receive_from_queue_no_assert 12345 ⟨8, []⟩
      = ReceiveOutcome.returns none [12345] ⟨8, []⟩ :=
  ⟨rfl, rfl⟩

/-- C2: the claim says a full queue rejects without blocking and the
caller then releases the rejected record.  The code rejects correctly
(`send_to_queue` returns `ESP_FAIL` with a zero-tick wait), but both
callers discard that result: after `system_log_message_route` runs
against a full queue (capacity 1 already holding pointer 100), the
freshly `malloc`ed record (pointer 0, contents "x") is live, absent
from the queue and never freed — leaked; `generate_log_message` leaks
its timestamped record the same way. -/
theorem rejected_record_is_leaked :
    (send_to_queue ⟨1, [100]⟩ 0).1 = EspErr.fail ∧
    (let st := (system_log_message_route "x" [] ⟨⟨0, [], []⟩, ⟨1, [100]⟩, []⟩).2
     st.queue.items = [100] ∧ st.heap.contents 0 = some "x" ∧ st.heap.freeLog = []) ∧
    (let r := generate_log_message EspLogLevel.info "T" 3 "f" "x" [] 9
        ⟨0, [], []⟩ ⟨1, [100]⟩
     r.2.items = [100] ∧ (r.1.contents 0).isSome = true ∧ r.1.freeLog = []) := by
  constructor
  · rfl
  constructor
  · exact ⟨rfl, rfl, rfl⟩
  · exact ⟨rfl, rfl, rfl⟩

/-- C3: the claim says no error inside the subsystem terminates the
process.  A receive timeout (queue empty until `portMAX_DELAY` elapses)
fails `configASSERT` inside `receive_from_queue`, so a single dispatch
iteration ends in a process abort rather than continuing. -/
theorem dispatch_terminates_process_on_timeout :
    wifi_logger_step (fun _ => 0) ⟨8, []⟩ = StepResult.crashed ∧
    wifi_logger_run (fun _ => 0) 1 ⟨8, []⟩ = RunResult.crashed [] :=
  ⟨rfl, rfl⟩

/-- C4 counterexample: with a transport whose every send fails
(returns -1) and four queued records, the fourth iteration — after
three consecutive failures — still performs an actual transport send
(`Event.send 3 (-1)` is in the trace): the loop never transitions to a
Degraded state that skips sends. -/
theorem no_degraded_state_counterexample :
    wifi_logger_run (fun _ => (-1 : Int)) 4 ⟨8, [0, 1, 2, 3]⟩
      = RunResult.ok ⟨8, []⟩
          [Event.dequeue 0, Event.send 0 (-1), Event.free 0,
           Event.dequeue 1, Event.send 1 (-1), Event.free 1,
           Event.dequeue 2, Event.send 2 (-1), Event.free 2,
           Event.dequeue 3, Event.send 3 (-1), Event.free 3] ∧
    Event.send 3 (-1)
      ∈ [Event.dequeue 0, Event.send 0 (-1), Event.free 0,
         Event.dequeue 1, Event.send 1 (-1), Event.free 1,
         Event.dequeue 2, Event.send 2 (-1), Event.free 2,
         Event.dequeue 3, Event.send 3 (-1), Event.free 3] := ⟨rfl, by decide⟩

/-- C4 amended: the dispatch task has no Degraded state — regardless of
how many consecutive sends fail (any transport function `f`, including
one failing always), it keeps draining: every queued record receives an
actual transport send attempt and is released, and the queue is empty
afterwards (memory stays bounded). -/
theorem dispatch_always_sends_and_releases (f : Nat → Int) (cap : Nat)
    (ps : List Nat) :
    wifi_logger_run f ps.length ⟨cap, ps⟩
      = RunResult.ok ⟨cap, []⟩ (dispatchTrace f ps) ∧
    sendsOf (dispatchTrace f ps) = ps ∧
    freesOf (dispatchTrace f ps) = ps :=
  ⟨run_drains f ps cap, sendsOf_dispatchTrace f ps, freesOf_dispatchTrace f ps⟩

/-- C5: records enqueued into a non-full queue are all accepted, kept in
FIFO order, and forwarded by the dispatch loop to the transport one at a
time in exactly enqueue order, leaving the queue empty. -/
theorem dispatch_preserves_enqueue_order (f : Nat → Int) (cap : Nat)
    (ps : List Nat) (h : ps.length ≤ cap) :
    enqueueAll ps ⟨cap, []⟩
      = (List.replicate ps.length EspErr.ok, ⟨cap, ps⟩) ∧
    wifi_logger_run f ps.length ⟨cap, ps⟩
      = RunResult.ok ⟨cap, []⟩ (dispatchTrace f ps) ∧
    sendsOf (dispatchTrace f ps) = ps := by
  refine ⟨?_, run_drains f ps cap, sendsOf_dispatchTrace f ps⟩
  have := enqueueAll_ok ps ⟨cap, []⟩ (by simpa using h)
  simpa using this

/-- C5 witness: records `[0, 1, 2]` (standing for "A","B","C") with
capacity 5 and an always-succeeding transport are all enqueued, sent in
order `0, 1, 2`, and the queue ends empty. -/
theorem dispatch_preserves_enqueue_order_witness :
    enqueueAll [0, 1, 2] ⟨5, []⟩
      = (List.replicate 3 EspErr.ok, ⟨5, [0, 1, 2]⟩) ∧
    wifi_logger_run (fun _ => 1) 3 ⟨5, [0, 1, 2]⟩
      = RunResult.ok ⟨5, []⟩ (dispatchTrace (fun _ => 1) [0, 1, 2]) ∧
    sendsOf (dispatchTrace (fun _ => 1) [0, 1, 2]) = [0, 1, 2] :=
  dispatch_preserves_enqueue_order (fun _ => 1) 5 [0, 1, 2] (by decide)

/-- C6: whatever byte count or error the transport returns for the
dequeued record `p` (any `f`), the iteration's trace is dequeue, then
the send, then exactly one `free` of `p` after the send — released
exactly once regardless of the send outcome. -/
theorem dequeued_record_released_once (f : Nat → Int) (cap p : Nat)
    (rest : List Nat) :
    wifi_logger_step f ⟨cap, p :: rest⟩
      = StepResult.ok ⟨cap, rest⟩
          [Event.dequeue p, Event.send p (f p), Event.free p] ∧
    countFree p [Event.dequeue p, Event.send p (f p), Event.free p] = 1 := by
  refine ⟨rfl, ?_⟩
  simp [countFree]

/-- C7: the claim says the Formatter writes at most the fixed buffer
size, truncating on overflow.  The code formats with `sprintf` and
`vsprintf`, which store the full rendered text regardless of the
destination's size: for every buffer bound there is an input (here a
tag one byte longer than the bound) whose rendered header plus message
plus terminating NUL exceeds the bound — the bytes are written past the
buffer end, not truncated. -/
theorem formatter_writes_beyond_any_buffer_bound (BUFFER_SIZE : Nat) :
    ∃ TAG func line fmt args,
      generate_log_message_bytes_written TAG func line fmt args > BUFFER_SIZE := by
  refine ⟨⟨List.replicate (BUFFER_SIZE + 1) 'a'⟩, "", 0, "", [], ?_⟩
  have h1 : (String.mk (List.replicate (BUFFER_SIZE + 1) 'a')).length
      = BUFFER_SIZE + 1 := by
    simp [String.length]
  simp only [generate_log_message_bytes_written, log_print_buffer_contents,
    logHeader, String.length_append, h1, gt_iff_lt]
  omega

/-- C8: the record `generate_log_message` allocates and passes to
`send_to_queue` is the timestamping step's prefix (numeric severity
rank, then the synthesized timestamp) followed by the header
`"<tag> (<function>:<line>) "` followed by the printf-style expansion of
the template over the arguments; when the queue is not full that record
is appended at the back.  (The timestamping step itself lives in
`util.cpp`, outside this snapshot, and is modelled from the spec.) -/
theorem generate_log_message_record_format (level : EspLogLevel)
    (TAG : String) (line : Int) (func fmt : String) (args : List FmtArg)
    (ts : Nat) (h : Heap) (q : Queue) :
    ((generate_log_message level TAG line func fmt args ts h q).1.live).getLast?
      = some (h.next,
          (toString (log_level_opt level) ++ " (" ++ toString ts ++ ") ")
            ++ ((TAG ++ " (" ++ func ++ ":" ++ toString line ++ ") ")
              ++ vsprintf fmt args)) ∧
    (q.items.length < q.capacity →
      (generate_log_message level TAG line func fmt args ts h q).2.items
        = q.items ++ [h.next]) := by
  constructor
  · simp [generate_log_message, Heap.malloc, generate_log_message_timestamp,
      log_print_buffer_contents, logHeader, List.getLast?_concat,
      String.append_assoc]
  · intro hlt
    simp [generate_log_message, Heap.malloc, send_to_queue, xQueueSendToBack, hlt]

/-- C8 witness: at severity Error, tag "T", function "f", line 3,
template "%d" with argument 5 and timestamp 9, on an empty heap and an
empty capacity-2 queue, the allocated record is
`"0 (9) " ++ "T (f:3) " ++ "5"` and it is enqueued at the back. -/
theorem generate_log_message_record_format_witness :
    ((generate_log_message EspLogLevel.error "T" 3 "f" "%d" [FmtArg.int 5] 9
        ⟨0, [], []⟩ ⟨2, []⟩).1.live).getLast?
      = some (0,
          (toString (log_level_opt EspLogLevel.error) ++ " (" ++ toString (9 : Nat) ++ ") ")
            ++ (("T" ++ " (" ++ "f" ++ ":" ++ toString (3 : Int) ++ ") ")
              ++ vsprintf "%d" [FmtArg.int 5])) ∧
    (generate_log_message EspLogLevel.error "T" 3 "f" "%d" [FmtArg.int 5] 9
        ⟨0, [], []⟩ ⟨2, []⟩).2.items = [] ++ [0] :=
  ⟨(generate_log_message_record_format EspLogLevel.error "T" 3 "f" "%d"
      [FmtArg.int 5] 9 ⟨0, [], []⟩ ⟨2, []⟩).1,
   (generate_log_message_record_format EspLogLevel.error "T" 3 "f" "%d"
      [FmtArg.int 5] 9 ⟨0, [], []⟩ ⟨2, []⟩).2 (by decide)⟩

/-- C9: `system_log_message_route` always appends the formatted text to
the local console sink and returns exactly the number of bytes written
there; the statement holds for every starting state — in particular for
a full queue (enqueue rejected) as for a non-full one (enqueue
accepted), so the return value is independent of the enqueue outcome. -/
theorem route_forwards_to_console_and_returns_bytes (fmt : String)
    (args : List FmtArg) (st : SysState) :
    (system_log_message_route fmt args st).2.console
      = st.console ++ [vsprintf fmt args] ∧
    (system_log_message_route fmt args st).1
      = ((vsprintf fmt args).length : Int) :=
  ⟨rfl, rfl⟩

/-- C10: whenever `receive_from_queue` returns (the `configASSERT` did
not abort), the underlying `xQueueReceive` succeeded: the value returned
is the pointer dequeued from the front, no `free` was performed, and
consequently the dispatch loop's `log_message == NULL` branch — which
would send the synthesized error string — is never taken. -/
theorem receive_returning_implies_success (q : Queue) (data : Option Nat)
    (frees : List Nat) (q' : Queue)
    (h : receive_from_queue q = ReceiveOutcome.returns data frees q') :
    (∃ p rest, q.items = p :: rest ∧ data = some p ∧ frees = []
      ∧ q' = ⟨q.capacity, rest⟩) ∧
    (∀ f qf evs, wifi_logger_step f q = StepResult.ok qf evs →
      ∀ s len, Event.sendStatic s len ∉ evs) := by
  obtain ⟨cap, items⟩ := q
  cases items with
  | nil => simp [receive_from_queue, xQueueReceive] at h
  | cons p rest =>
      simp only [receive_from_queue, xQueueReceive, ReceiveOutcome.returns.injEq] at h
      obtain ⟨hd, hf, hq⟩ := h
      subst hd hf hq
      refine ⟨⟨p, rest, rfl, rfl, rfl, rfl⟩, ?_⟩
      intro f qf evs hstep s len
      simp only [wifi_logger_step, receive_from_queue, xQueueReceive,
        StepResult.ok.injEq] at hstep
      obtain ⟨_, hevs⟩ := hstep
      subst hevs
      simp

/-- C10 witness: on a capacity-2 queue holding pointer 7,
`receive_from_queue` returns the dequeued pointer 7, frees nothing, and
no dispatch iteration takes the error-string branch. -/
theorem receive_returning_implies_success_witness :
    (∃ p rest, ([7] : List Nat) = p :: rest ∧ (some 7 : Option Nat) = some p
      ∧ ([] : List Nat) = [] ∧ (⟨2, []⟩ : Queue) = ⟨2, rest⟩) ∧
    (∀ f qf evs, wifi_logger_step f ⟨2, [7]⟩ = StepResult.ok qf evs →
      ∀ s len, Event.sendStatic s len ∉ evs) :=
  receive_returning_implies_success ⟨2, [7]⟩ (some 7) [] ⟨2, []⟩ rfl


